import Mathlib

/-!
Shallow embedding of `src/mock-data/generate_mock_data.py`, the Fleet
Connectivity Intelligence mock data generator, together with proofs about the
claims on its specification.

Modelling conventions:
* Python's global Mersenne-Twister generator is replaced by an oracle: every
  random draw performed by `generate_vehicle` / `generate_cell_towers` is a
  field of a draw record (`VehicleDraws`, `TowerDraws`).  The predicate
  `validDraws` states exactly the ranges that the corresponding Python calls
  (`random.random`, `random.randint`, `random.uniform`, `random.choice`,
  `random.sample`) can produce, so "attainable draws" means
  `validDraws d = true`.
* Python floats are modelled as exact rationals; `round(x, k)` is modelled by
  `roundHE` / `round_dp` (round half to even, as Python's `round`).  The
  one-decimal `uptime` produced by `round(random.uniform(a, b), 1)` is
  modelled by an integer draw of tenths (`uptimeTenths`).
* Timestamps count seconds as rationals; `datetime.now(timezone.utc)` is the
  explicit parameter `now`.  `strftime("%Y-%m-%dT%H:%M:00Z")` truncation to
  whole minutes is `minuteFloor`.  The fixed-width ISO-8601 rendering of these
  timestamps is order-isomorphic to the numeric time, so the Python sorts on
  timestamp strings are modelled by sorts on the numeric timestamps.
-/

/-- The four health labels, used both for the sampled latent profile and for
the classified tier (the Python code uses the four string literals
`"healthy"`, `"minor"`, `"warning"`, `"critical"` for both). -/
inductive Tier where
  | healthy
  | minor
  | warning
  | critical
  deriving DecidableEq

/-- One entry of the `CARRIERS` table. -/
structure CarrierInfo where
  carrier : String
  mcc : String
  mnc : String
  country : String
  deriving DecidableEq

/-- `CARRIERS` configuration table. -/
def CARRIERS : List CarrierInfo :=
  [⟨"Orange ES", "214", "03", "Spain"⟩,
   ⟨"Vodafone PT", "268", "01", "Portugal"⟩,
   ⟨"NOS PT", "268", "03", "Portugal"⟩,
   ⟨"Movistar", "214", "07", "Spain"⟩,
   ⟨"Vodafone ES", "214", "01", "Spain"⟩]

/-- One entry of the `CELL_SITES` table. -/
structure CellSite where
  lac : String
  cell : String
  deriving DecidableEq

/-- `CELL_SITES` dictionary, keyed by carrier name. -/
def CELL_SITES (carrier : String) : List CellSite :=
  if carrier = "Orange ES" then [⟨"103", "49885"⟩, ⟨"803", "64084"⟩]
  else if carrier = "Vodafone PT" then [⟨"131", "47723"⟩, ⟨"954", "49145"⟩]
  else if carrier = "NOS PT" then [⟨"234", "18145"⟩, ⟨"354", "12245"⟩]
  else if carrier = "Movistar" then [⟨"496", "25821"⟩, ⟨"367", "26890"⟩]
  else if carrier = "Vodafone ES" then [⟨"703", "56754"⟩, ⟨"725", "40532"⟩]
  else []

/-- `RAT_MAP` dictionary: 1=GSM, 2=WCDMA, 4=LTE. -/
def RAT_MAP (code : ℤ) : String :=
  if code = 1 then "GSM"
  else if code = 2 then "WCDMA"
  else if code = 4 then "LTE"
  else ""

/-- `EVENT_CODES` table. -/
def EVENT_CODES : List String :=
  ["ATTACH", "DETACH", "HANDOVER", "TAU",
   "PDP_ACTIVATE", "PDP_DEACTIVATE", "SERVICE_REQUEST"]

/-- `ERROR_TYPES` table. -/
def ERROR_TYPES : List String :=
  ["CONTEXT_DEACTIVATION", "NETWORK_TIMEOUT", "AUTH_FAILURE",
   "GPRS_DETACH", "ATTACH_REJECT", "PDP_REJECT"]

/-- `ERROR_DESCRIPTIONS.get(err_type, "Unknown error")`. -/
def ERROR_DESCRIPTIONS (e : String) : String :=
  if e = "CONTEXT_DEACTIVATION" then
    "Data session torn down by network — congestion or admin action"
  else if e = "NETWORK_TIMEOUT" then
    "No response from SGSN/MME within timeout window — signalling path failure"
  else if e = "AUTH_FAILURE" then
    "SIM authentication rejected by visited network — possible roaming agreement issue"
  else if e = "GPRS_DETACH" then
    "Network-initiated GPRS detach — SIM deregistered from packet domain"
  else if e = "ATTACH_REJECT" then
    "Network attach request rejected — IMSI not provisioned for this PLMN"
  else if e = "PDP_REJECT" then
    "Packet data session activation denied by GGSN — APN config or quota exceeded"
  else "Unknown error"

/-- One entry of the `INCIDENT_TYPES` table. -/
structure IncidentType where
  type : String
  desc : String
  severity : String
  deriving DecidableEq

/-- `INCIDENT_TYPES` table. -/
def INCIDENT_TYPES : List IncidentType :=
  [⟨"3G-FALLBACK", "Persistent 3G/2G fallback in LTE coverage area", "HIGH"⟩,
   ⟨"SIG-LOSS", "Intermittent signal loss detected", "CRITICAL"⟩,
   ⟨"DATA-RETRY", "Excessive data retransmissions", "CRITICAL"⟩,
   ⟨"PERF-DEGRADE", "Network performance degradation observed", "MEDIUM"⟩]

/-- `DEPOT_LOCATIONS` table (latitude, longitude). -/
def DEPOT_LOCATIONS : List (ℚ × ℚ) :=
  [(41.8975, -8.8574), (42.2348, -8.7131), (42.1336, -8.7983),
   (42.2644, -8.4569), (42.0410, -8.6481), (41.5283, 0.5164),
   (39.4852, -0.5346), (38.6322, -3.4661)]

/-- Python's `str.zfill`: left-pad with `'0'` up to width `n`. -/
def zfill (s : String) (n : ℕ) : String :=
  ⟨List.replicate (n - s.length) '0' ++ s.data⟩

/-- `generate_imsi`: `f"21401{str(index).zfill(10)}"`. -/
def generate_imsi (index : ℕ) : String :=
  "21401" ++ zfill (Nat.repr index) 10

/-- `generate_imei`: `str(35684900000000 + index * 100 + random.randint(10, 99))`;
the `random.randint(10, 99)` draw is the explicit argument `suffix`. -/
def generate_imei (index : ℕ) (suffix : ℤ) : String :=
  Int.repr (35684900000000 + (index : ℤ) * 100 + suffix)

/-- `assign_health_tier(signal, drops, uptime)`, translated clause for clause. -/
def assign_health_tier (signal drops : ℤ) (uptime : ℚ) : Tier :=
  if signal < 50 ∨ drops ≥ 8 ∨ uptime < 90 then Tier.critical
  else if (50 ≤ signal ∧ signal < 65 ∧ drops ≥ 3) ∨ (drops ≥ 3 ∧ uptime < 96) then Tier.warning
  else if signal < 70 ∨ drops ≥ 2 ∨ uptime < 98 then Tier.minor
  else Tier.healthy

/-- The profile selection at the top of `generate_vehicle`: branch on the
single `random.random()` draw `roll`. -/
def profileOfRoll (roll : ℚ) : Tier :=
  if roll < 0.10 then Tier.critical
  else if roll < 0.20 then Tier.warning
  else if roll < 0.30 then Tier.minor
  else Tier.healthy

/-- Round half to even to an integer, as Python's `round(x)`. -/
def roundHE (q : ℚ) : ℤ :=
  let f := ⌊q⌋
  let r := q - (f : ℚ)
  if r < 1/2 then f
  else if 1/2 < r then f + 1
  else if f % 2 = 0 then f else f + 1

/-- Python's `round(x, k)` on exact rationals. -/
def round_dp (k : ℕ) (q : ℚ) : ℚ :=
  (roundHE (q * 10 ^ k) : ℚ) / 10 ^ k

/-- Truncation of a timestamp (seconds) to a whole minute, as
`strftime("%Y-%m-%dT%H:%M:00Z")` does. -/
def minuteFloor (t : ℚ) : ℤ :=
  60 * ⌊t / 60⌋

/-- Draws consumed per network event in the events loop. -/
structure EventDraws where
  hoursAgo : ℚ
  codeIdx : ℕ
  pdprx : ℤ
  pdptx : ℤ

/-- Draws consumed per incident in the incidents loop. -/
structure IncidentDraws where
  typeIdx : ℕ
  statusIdx : ℕ
  hoursAgo : ℚ

/-- Oracle for all random draws consumed by one `generate_vehicle` call.
`random.choice` draws are modelled as indices, `random.sample` as the sampled
list, and the healthy-profile `pdp_attempts - random.randint(0, 3)` /
`loc_updates - random.randint(0, 5)` subtrahends as `pdpDelta` / `locDelta`. -/
structure VehicleDraws where
  roll : ℚ
  carrierIdx : ℕ
  siteIdx : ℕ
  depotIdx : ℕ
  latJitter : ℚ
  lonJitter : ℚ
  signal : ℤ
  ratPick : ℕ
  drops : ℤ
  uptimeTenths : ℤ
  errCount : ℤ
  errTypes : List String
  dataUsed : ℤ
  pdpAttempts : ℤ
  pdpSuccess : ℤ
  pdpDelta : ℤ
  locUpdates : ℤ
  locSuccess : ℤ
  locDelta : ℤ
  numEvents : ℕ
  numIncidents : ℕ
  lastDisc : ℤ
  drivingRoll : ℚ
  speedZero : Bool
  speedVal : ℤ
  eventDraws : ℕ → EventDraws
  incidentDraws : ℕ → IncidentDraws
  lastErrMinutes : ℤ
  imeiSuffix : ℤ
  dlBytes : ℤ
  ulBytes : ℤ

/-- A network event record. -/
structure Event where
  id : String
  code : String
  occurredAt : ℚ
  ratType : ℤ
  mcc : String
  mnc : String
  lac : String
  cell : String
  pdprx : ℤ
  pdptx : ℤ
  deriving DecidableEq

/-- An incident record. -/
structure Incident where
  id : String
  type : String
  description : String
  status : String
  severity : String
  created : ℚ
  deriving DecidableEq

/-- A vehicle record; field names follow the JSON keys of the generator. -/
structure Vehicle where
  id : String
  nm : String
  lat : ℚ
  lon : ℚ
  spd : ℤ
  drv : Bool
  comm : Bool
  imsi : String
  sig : ℤ
  tier : Tier
  rat : String
  carrier : String
  mcc : String
  mnc : String
  lac : String
  cell : String
  used : ℤ
  plan : ℤ
  balPct : ℚ
  drops : ℤ
  uptime : ℚ
  lastDisc : ℤ
  incidents : List Incident
  events : List Event
  imei : String
  pdpAttempts : ℤ
  pdpSuccess : ℤ
  locUpdates : ℤ
  locSuccess : ℤ
  errCount : ℤ
  errTypes : List String
  lastErr : Option ℤ
  dlBytes : ℤ
  ulBytes : ℤ
  country : String
  deriving DecidableEq

/-- A cell tower record. -/
structure Tower where
  lat : ℚ
  lon : ℚ
  rat : String
  carrier : String
  mcc : String
  mnc : String
  lac : String
  cell : String
  weak : Bool
  deriving DecidableEq

/-- An error-log entry. -/
structure ErrorEntry where
  ts : ℤ
  vehicle : String
  imsi : String
  imei : String
  carrier : String
  country : String
  rat : String
  errCode : String
  errDesc : String
  cell : String
  tier : Tier
  deriving DecidableEq

/-- The top-level output document `{"v": ..., "t": ..., "errors": ...}`. -/
structure Document where
  v : List Vehicle
  t : List Tower
  errors : List ErrorEntry
  deriving DecidableEq

/-- Descending order on event timestamps (`events.sort(key=..., reverse=True)`). -/
def eventLater (a b : Event) : Prop :=
  b.occurredAt ≤ a.occurredAt

instance : DecidableRel eventLater :=
  fun a b => inferInstanceAs (Decidable (b.occurredAt ≤ a.occurredAt))

/-- Descending order on error-log timestamps (`errors.sort(key=..., reverse=True)`). -/
def errEntryLater (a b : ErrorEntry) : Prop :=
  b.ts ≤ a.ts

instance : DecidableRel errEntryLater :=
  fun a b => inferInstanceAs (Decidable (b.ts ≤ a.ts))

instance : IsTotal ErrorEntry errEntryLater :=
  ⟨fun a b => le_total b.ts a.ts⟩

instance : IsTrans ErrorEntry errEntryLater :=
  ⟨fun _ _ _ h1 h2 => le_trans h2 h1⟩

/-- Number of network events generated for the draws `d`
(`num_events`: profile-range draw, or the constant 1 for healthy). -/
def numEventsOf (d : VehicleDraws) : ℕ :=
  match profileOfRoll d.roll with
  | Tier.healthy => 1
  | _ => d.numEvents

/-- Number of incidents generated for the draws `d`
(`num_incidents`: drawn for critical and warning, constant 0 otherwise). -/
def numIncidentsOf (d : VehicleDraws) : ℕ :=
  match profileOfRoll d.roll with
  | Tier.critical => d.numIncidents
  | Tier.warning => d.numIncidents
  | _ => 0

/-- `generate_vehicle(index, now)`, with the random draws made explicit. -/
def generate_vehicle (d : VehicleDraws) (index : ℕ) (now : ℚ) : Vehicle :=
  let profile := profileOfRoll d.roll
  let carrier_info := CARRIERS.getD d.carrierIdx ⟨"", "", "", ""⟩
  let carrier := carrier_info.carrier
  let site := (CELL_SITES carrier).getD d.siteIdx ⟨"", ""⟩
  let depot := DEPOT_LOCATIONS.getD d.depotIdx (0, 0)
  let lat := depot.1 + d.latJitter
  let lon := depot.2 + d.lonJitter
  let signal := d.signal
  let rat_code : ℤ :=
    match profile with
    | Tier.critical => [1, 2].getD d.ratPick 1
    | Tier.warning => [2, 4].getD d.ratPick 2
    | _ => 4
  let drops := d.drops
  let uptime : ℚ := (d.uptimeTenths : ℚ) / 10
  let err_count := d.errCount
  let err_types : List String :=
    match profile with
    | Tier.healthy => if 0 < d.errCount then ERROR_TYPES.take 1 else []
    | _ => d.errTypes
  let data_used := d.dataUsed
  let pdp_attempts := d.pdpAttempts
  let pdp_success : ℤ :=
    match profile with
    | Tier.healthy => d.pdpAttempts - d.pdpDelta
    | _ => d.pdpSuccess
  let loc_updates := d.locUpdates
  let loc_success : ℤ :=
    match profile with
    | Tier.healthy => d.locUpdates - d.locDelta
    | _ => d.locSuccess
  let num_events := numEventsOf d
  let num_incidents := numIncidentsOf d
  let rat := RAT_MAP rat_code
  let plan : ℤ := 2048
  let bal_pct := round_dp 1 (((plan : ℚ) - (data_used : ℚ)) / (plan : ℚ) * 100)
  let last_disc := d.lastDisc
  let driving := decide (d.drivingRoll < 0.2)
  let speed : ℤ := if driving then (if d.speedZero then 0 else d.speedVal) else 0
  let events :=
    List.insertionSort eventLater ((List.range num_events).map (fun e =>
      let ed := d.eventDraws e
      { id := "EVT-" ++ zfill (Nat.repr index) 2 ++ "-" ++ zfill (Nat.repr e) 3
        code := EVENT_CODES.getD ed.codeIdx ""
        occurredAt := now - ed.hoursAgo * 3600
        ratType := rat_code
        mcc := carrier_info.mcc
        mnc := carrier_info.mnc
        lac := site.lac
        cell := site.cell
        pdprx := ed.pdprx
        pdptx := ed.pdptx : Event }))
  let incidents :=
    (List.range num_incidents).map (fun i =>
      let idr := d.incidentDraws i
      let inc_type := INCIDENT_TYPES.getD idr.typeIdx ⟨"", "", ""⟩
      { id := "INC-" ++ zfill (Nat.repr index) 2 ++ "-" ++ inc_type.type
        type := inc_type.type
        description := inc_type.desc
        status := ["NEW", "ASSIGNED", "IN_PROGRESS"].getD idr.statusIdx ""
        severity := inc_type.severity
        created := now - idr.hoursAgo * 3600 : Incident })
  let last_err : Option ℤ :=
    if 0 < err_count ∧
        (profile = Tier.critical ∨ profile = Tier.warning ∨ profile = Tier.minor) then
      some (minuteFloor (now - 60 * d.lastErrMinutes))
    else none
  let tier := assign_health_tier signal drops uptime
  { id := "b" ++ (Nat.toDigits 16 index).asString
    nm := "Demo - " ++ zfill (Nat.repr index) 2
    lat := round_dp 7 lat
    lon := round_dp 7 lon
    spd := speed
    drv := driving
    comm := true
    imsi := generate_imsi index
    sig := signal
    tier := tier
    rat := rat
    carrier := carrier
    mcc := carrier_info.mcc
    mnc := carrier_info.mnc
    lac := site.lac
    cell := site.cell
    used := data_used
    plan := plan
    balPct := bal_pct
    drops := drops
    uptime := uptime
    lastDisc := last_disc
    incidents := incidents
    events := events
    imei := generate_imei index d.imeiSuffix
    pdpAttempts := pdp_attempts
    pdpSuccess := pdp_success
    locUpdates := loc_updates
    locSuccess := loc_success
    errCount := err_count
    errTypes := err_types
    lastErr := last_err
    dlBytes := d.dlBytes
    ulBytes := d.ulBytes
    country := carrier_info.country }

/-- Oracle for all random draws consumed per tower in `generate_cell_towers`. -/
structure TowerDraws where
  lat : ℚ
  lon : ℚ
  carrierIdx : ℕ
  ratIdx : ℕ
  weakRoll : ℚ
  lac : ℤ
  cell : ℤ

/-- The tower built from one iteration of the `generate_cell_towers` loop. -/
def generate_tower (t : TowerDraws) : Tower :=
  let carrier_info := CARRIERS.getD t.carrierIdx ⟨"", "", "", ""⟩
  { lat := round_dp 5 t.lat
    lon := round_dp 5 t.lon
    rat := ["LTE", "WCDMA", "GSM"].getD t.ratIdx ""
    carrier := carrier_info.carrier
    mcc := carrier_info.mcc
    mnc := carrier_info.mnc
    lac := Int.repr t.lac
    cell := Int.repr t.cell
    weak := decide (t.weakRoll < 0.15) }

/-- `generate_cell_towers(count)`, with the draws of iteration `j` given by `td j`. -/
def generate_cell_towers (td : ℕ → TowerDraws) (count : ℕ) : List Tower :=
  (List.range count).map (fun j => generate_tower (td j))

/-- The error-log entries contributed by one vehicle: skipped when
`v["tier"] == "healthy"` or `not v["lastErr"]`, else one entry per element of
`v["errTypes"]`. -/
def errorEntriesOf (v : Vehicle) : List ErrorEntry :=
  if v.tier = Tier.healthy then []
  else
    match v.lastErr with
    | none => []
    | some ts =>
      v.errTypes.map (fun err_type =>
        { ts := ts
          vehicle := v.nm
          imsi := v.imsi
          imei := v.imei
          carrier := v.carrier
          country := v.country
          rat := v.rat
          errCode := err_type
          errDesc := ERROR_DESCRIPTIONS err_type
          cell := v.mcc ++ "-" ++ v.mnc ++ "-" ++ v.lac ++ "-" ++ v.cell
          tier := v.tier })

/-- `generate_error_log(vehicles, now)`: collect the per-vehicle entries in
list order, then sort by timestamp descending.  It is a pure function of the
vehicle list and draws no randomness. -/
def generate_error_log (vehicles : List Vehicle) : List ErrorEntry :=
  List.insertionSort errEntryLater (vehicles.flatMap errorEntriesOf)

/-- `main` after argument parsing: build `args.vehicles` vehicles with 1-based
indices, `args.towers` towers, the error log, and assemble the document. -/
def generate_document (vd : ℕ → VehicleDraws) (td : ℕ → TowerDraws)
    (nVehicles nTowers : ℕ) (now : ℚ) : Document :=
  let vehicles := (List.range nVehicles).map (fun i => generate_vehicle (vd i) (i + 1) now)
  { v := vehicles
    t := generate_cell_towers td nTowers
    errors := generate_error_log vehicles }

/-- `lo ≤ x ≤ hi`, the attainable range of `random.randint(lo, hi)`. -/
def inRangeZ (x lo hi : ℤ) : Bool :=
  decide (lo ≤ x) && decide (x ≤ hi)

/-- Attainable draws for one network event: `random.uniform(0.5, 24)` hours,
`random.choice(EVENT_CODES)`, `random.randint(1000, 500000)` and
`random.randint(1000, 200000)` byte counters. -/
def validEvent (ed : EventDraws) : Bool :=
  decide ((1 : ℚ)/2 ≤ ed.hoursAgo) && decide (ed.hoursAgo ≤ 24) &&
  decide (ed.codeIdx < 7) &&
  inRangeZ ed.pdprx 1000 500000 && inRangeZ ed.pdptx 1000 200000

/-- Attainable draws for one incident: `random.choice(INCIDENT_TYPES)`,
`random.choice(["NEW", "ASSIGNED", "IN_PROGRESS"])`, `random.uniform(1, 72)` hours. -/
def validIncident (idr : IncidentDraws) : Bool :=
  decide (idr.typeIdx < 4) && decide (idr.statusIdx < 3) &&
  decide ((1 : ℚ) ≤ idr.hoursAgo) && decide (idr.hoursAgo ≤ 72)

/-- Attainable results of `random.sample(pool, k=random.randint(lo, hi))`:
a duplicate-free list of elements of `pool` with length in `[lo, hi]`
(in arbitrary order). -/
def validSample (pool : List String) (lo hi : ℕ) (s : List String) : Bool :=
  decide (lo ≤ s.length) && decide (s.length ≤ hi) &&
  decide s.Nodup && decide (∀ x ∈ s, x ∈ pool)

/-- The profile-specific draw ranges of the four branches of `generate_vehicle`
(lines 161-216 of the source). -/
def validProfileDraws (d : VehicleDraws) : Bool :=
  match profileOfRoll d.roll with
  | Tier.critical =>
    inRangeZ d.signal 20 45 && decide (d.ratPick < 2) &&
    inRangeZ d.drops 8 20 && inRangeZ d.uptimeTenths 850 930 &&
    inRangeZ d.errCount 15 40 && validSample ERROR_TYPES 3 5 d.errTypes &&
    inRangeZ d.dataUsed 800 1400 &&
    inRangeZ d.pdpAttempts 100 150 && inRangeZ d.pdpSuccess 40 70 &&
    inRangeZ d.locUpdates 200 360 && inRangeZ d.locSuccess 100 220 &&
    decide (3 ≤ d.numEvents) && decide (d.numEvents ≤ 12) &&
    decide (1 ≤ d.numIncidents) && decide (d.numIncidents ≤ 3) &&
    inRangeZ d.lastDisc 5 10000
  | Tier.warning =>
    inRangeZ d.signal 55 68 && decide (d.ratPick < 2) &&
    inRangeZ d.drops 3 7 && inRangeZ d.uptimeTenths 900 970 &&
    inRangeZ d.errCount 5 15 && validSample ERROR_TYPES 2 3 d.errTypes &&
    inRangeZ d.dataUsed 400 800 &&
    inRangeZ d.pdpAttempts 50 90 && inRangeZ d.pdpSuccess 30 65 &&
    inRangeZ d.locUpdates 200 300 && inRangeZ d.locSuccess 100 180 &&
    decide (3 ≤ d.numEvents) && decide (d.numEvents ≤ 6) &&
    decide (d.numIncidents ≤ 1) &&
    inRangeZ d.lastDisc 300 10000
  | Tier.minor =>
    inRangeZ d.signal 63 76 &&
    inRangeZ d.drops 1 3 && inRangeZ d.uptimeTenths 960 995 &&
    inRangeZ d.errCount 1 5 && validSample (ERROR_TYPES.take 2) 1 2 d.errTypes &&
    inRangeZ d.dataUsed 200 450 &&
    inRangeZ d.pdpAttempts 30 60 && inRangeZ d.pdpSuccess 25 45 &&
    inRangeZ d.locUpdates 100 200 && inRangeZ d.locSuccess 100 190 &&
    decide (2 ≤ d.numEvents) && decide (d.numEvents ≤ 3) &&
    inRangeZ d.lastDisc 300 10000
  | Tier.healthy =>
    inRangeZ d.signal 75 106 &&
    inRangeZ d.drops 0 1 && inRangeZ d.uptimeTenths 980 1000 &&
    inRangeZ d.errCount 0 1 &&
    inRangeZ d.dataUsed 100 350 &&
    inRangeZ d.pdpAttempts 10 30 && inRangeZ d.pdpDelta 0 3 &&
    inRangeZ d.locUpdates 50 120 && inRangeZ d.locDelta 0 5 &&
    inRangeZ d.lastDisc 300 10000

/-- A complete characterisation of the draws attainable from the Python random
calls performed by `generate_vehicle`, in their fixed call order. -/
def validDraws (d : VehicleDraws) : Bool :=
  decide ((0 : ℚ) ≤ d.roll) && decide (d.roll < 1) &&
  decide (d.carrierIdx < 5) && decide (d.siteIdx < 2) && decide (d.depotIdx < 8) &&
  decide (-(1 : ℚ)/50 ≤ d.latJitter) && decide (d.latJitter ≤ 1/50) &&
  decide (-(1 : ℚ)/50 ≤ d.lonJitter) && decide (d.lonJitter ≤ 1/50) &&
  validProfileDraws d &&
  decide ((0 : ℚ) ≤ d.drivingRoll) && decide (d.drivingRoll < 1) &&
  inRangeZ d.speedVal 15 95 &&
  (List.range (numEventsOf d)).all (fun j => validEvent (d.eventDraws j)) &&
  (List.range (numIncidentsOf d)).all (fun j => validIncident (d.incidentDraws j)) &&
  inRangeZ d.lastErrMinutes 10 300 &&
  inRangeZ d.imeiSuffix 10 99 &&
  inRangeZ d.dlBytes 70000000 1000000000 &&
  inRangeZ d.ulBytes 20000000 420000000

/-- Attainable draws for one tower iteration. -/
def validTowerDraws (t : TowerDraws) : Bool :=
  decide ((41 : ℚ) ≤ t.lat) && decide (t.lat ≤ 43.5) &&
  decide (-(9.5 : ℚ) ≤ t.lon) && decide (t.lon ≤ -(6.5 : ℚ)) &&
  decide (t.carrierIdx < 5) && decide (t.ratIdx < 3) &&
  decide ((0 : ℚ) ≤ t.weakRoll) && decide (t.weakRoll < 1) &&
  inRangeZ t.lac 100 999 && inRangeZ t.cell 10000 65000

/-- Concrete attainable per-event draws used in witnesses. -/
def edDefault : EventDraws :=
  ⟨1, 0, 1000, 1000⟩

/-- Concrete attainable per-incident draws used in witnesses. -/
def idrDefault : IncidentDraws :=
  ⟨0, 0, 1⟩

/-- Concrete attainable draws selecting the critical profile (`roll = 0`). -/
def dCrit : VehicleDraws where
  roll := 0
  carrierIdx := 0
  siteIdx := 0
  depotIdx := 0
  latJitter := 0
  lonJitter := 0
  signal := 20
  ratPick := 0
  drops := 8
  uptimeTenths := 850
  errCount := 15
  errTypes := ["CONTEXT_DEACTIVATION", "NETWORK_TIMEOUT", "AUTH_FAILURE"]
  dataUsed := 800
  pdpAttempts := 100
  pdpSuccess := 40
  pdpDelta := 0
  locUpdates := 200
  locSuccess := 100
  locDelta := 0
  numEvents := 3
  numIncidents := 1
  lastDisc := 5
  drivingRoll := 1/2
  speedZero := false
  speedVal := 15
  eventDraws := fun _ => edDefault
  incidentDraws := fun _ => idrDefault
  lastErrMinutes := 10
  imeiSuffix := 10
  dlBytes := 70000000
  ulBytes := 20000000

/-- Concrete attainable draws selecting the minor profile (`roll = 1/4`) whose
sampled values classify as healthy and have success counts above attempt
counts. -/
def dMinor : VehicleDraws where
  roll := 1/4
  carrierIdx := 0
  siteIdx := 0
  depotIdx := 0
  latJitter := 0
  lonJitter := 0
  signal := 76
  ratPick := 0
  drops := 1
  uptimeTenths := 995
  errCount := 1
  errTypes := ["CONTEXT_DEACTIVATION"]
  dataUsed := 200
  pdpAttempts := 30
  pdpSuccess := 45
  pdpDelta := 0
  locUpdates := 100
  locSuccess := 190
  locDelta := 0
  numEvents := 2
  numIncidents := 0
  lastDisc := 300
  drivingRoll := 1/2
  speedZero := false
  speedVal := 15
  eventDraws := fun _ => edDefault
  incidentDraws := fun _ => idrDefault
  lastErrMinutes := 10
  imeiSuffix := 10
  dlBytes := 70000000
  ulBytes := 20000000

/-- Concrete attainable tower draws. -/
def tdDefault : TowerDraws :=
  ⟨41, -9, 0, 0, 1/2, 100, 10000⟩

/-- The health-tier classification exactly as the specification words it
(priority order, first match wins), for comparison with `assign_health_tier`. -/
def classify_spec (signal drops : ℤ) (uptime : ℚ) : Tier :=
  if signal < 50 ∨ drops ≥ 8 ∨ uptime < 90 then Tier.critical
  else if (50 ≤ signal ∧ signal < 65 ∧ drops ≥ 3) ∨ (drops ≥ 3 ∧ uptime < 96) then Tier.warning
  else if signal < 70 ∨ drops ≥ 2 ∨ uptime < 98 then Tier.minor
  else Tier.healthy

/-- Length of `Nat.toDigitsCore`: one character per base-`base` digit, plus
the accumulator. -/
theorem toDigitsCore_length (base : ℕ) (hb : 2 ≤ base) :
    ∀ (fuel n : ℕ) (acc : List Char), n < fuel →
      (Nat.toDigitsCore base fuel n acc).length = Nat.log base n + 1 + acc.length := by
  intro fuel
  induction fuel with
  | zero => intro n acc h; omega
  | succ fuel ih =>
    intro n acc h
    simp only [Nat.toDigitsCore]
    split
    · next hdiv =>
      have hn : n < base := by
        rcases Nat.eq_zero_or_pos n with h0 | h0
        · omega
        · by_contra hge
          push_neg at hge
          have := Nat.div_pos hge (by omega)
          omega
      rw [Nat.log_eq_zero_iff.mpr (Or.inl hn)]
      simp
      omega
    · next hdiv =>
      have hge : base ≤ n := by
        by_contra hlt
        push_neg at hlt
        exact hdiv (Nat.div_eq_of_lt hlt)
      have hlt' : n / base < fuel := by
        have h1 : n / base < n := Nat.div_lt_self (by omega) (by omega)
        omega
      rw [ih (n / base) _ hlt']
      have hlog : Nat.log base (n / base) = Nat.log base n - 1 := Nat.log_div_base base n
      have hpos : 0 < Nat.log base n := Nat.log_pos (by omega) hge
      simp [hlog]
      omega

/-- The characters produced by `Nat.digitChar` below 10 are decimal digits. -/
theorem digitChar_isDigit : ∀ m : ℕ, m < 10 → (Nat.digitChar m).isDigit = true := by
  decide

/-- Every character `Nat.toDigitsCore 10` emits is a decimal digit. -/
theorem toDigitsCore_digits (fuel : ℕ) :
    ∀ (n : ℕ) (acc : List Char), (∀ c ∈ acc, c.isDigit = true) →
      ∀ c ∈ Nat.toDigitsCore 10 fuel n acc, c.isDigit = true := by
  induction fuel with
  | zero => intro n acc hacc; simpa [Nat.toDigitsCore] using hacc
  | succ fuel ih =>
    intro n acc hacc c hc
    simp only [Nat.toDigitsCore] at hc
    split at hc
    · rcases List.mem_cons.mp hc with h | h
      · subst h; exact digitChar_isDigit _ (Nat.mod_lt _ (by norm_num))
      · exact hacc _ h
    · refine ih _ _ ?_ _ hc
      intro c' hc'
      rcases List.mem_cons.mp hc' with h | h
      · subst h; exact digitChar_isDigit _ (Nat.mod_lt _ (by norm_num))
      · exact hacc _ h

/-- Length of the decimal representation `str(n)`. -/
theorem repr_length (n : ℕ) : (Nat.repr n).length = Nat.log 10 n + 1 := by
  have h := toDigitsCore_length 10 (by norm_num) (n + 1) n [] (Nat.lt_succ_self n)
  simpa [Nat.repr, Nat.toDigits, List.asString, String.length] using h

/-- All characters of `str(n)` are decimal digits. -/
theorem repr_digits (n : ℕ) : ∀ c ∈ (Nat.repr n).data, c.isDigit = true := by
  have h := toDigitsCore_digits (n + 1) n [] (by simp)
  simpa [Nat.repr, Nat.toDigits, List.asString] using h

/-- Length of `zfill`. -/
theorem zfill_length (s : String) (n : ℕ) :
    (zfill s n).length = (n - s.length) + s.length := by
  show (List.replicate (n - s.length) '0' ++ s.data).length = (n - s.length) + s.length
  simp

set_option maxRecDepth 8000 in
/-- The pieces of `validDraws` needed by the claim proofs. -/
theorem validDraws_parts (d : VehicleDraws) (hv : validDraws d = true) :
    validProfileDraws d = true ∧
    (10 ≤ d.lastErrMinutes ∧ d.lastErrMinutes ≤ 300) ∧
    (10 ≤ d.imeiSuffix ∧ d.imeiSuffix ≤ 99) := by
  unfold validDraws at hv
  simp only [Bool.and_eq_true, inRangeZ, decide_eq_true_eq] at hv
  exact ⟨hv.1.1.1.1.1.1.1.1.1.2, hv.1.1.1.2, hv.1.1.2⟩

/-- The `errCount` field stores the `err_count` draw unchanged. -/
theorem gv_errCount (d : VehicleDraws) (index : ℕ) (now : ℚ) :
    (generate_vehicle d index now).errCount = d.errCount := rfl

/-- The `errTypes` field: the `err_types` sample for the three non-healthy
profiles, the special singleton-or-empty form for healthy. -/
theorem gv_errTypes (d : VehicleDraws) (index : ℕ) (now : ℚ) :
    (generate_vehicle d index now).errTypes =
      (match profileOfRoll d.roll with
       | Tier.healthy => if 0 < d.errCount then ERROR_TYPES.take 1 else []
       | _ => d.errTypes) := rfl

/-- The `lastErr` field as stored by `generate_vehicle`. -/
theorem gv_lastErr (d : VehicleDraws) (index : ℕ) (now : ℚ) :
    (generate_vehicle d index now).lastErr =
      (if 0 < d.errCount ∧
          (profileOfRoll d.roll = Tier.critical ∨ profileOfRoll d.roll = Tier.warning ∨
            profileOfRoll d.roll = Tier.minor) then
        some (minuteFloor (now - 60 * d.lastErrMinutes))
      else none) := rfl

/-- A non-healthy tier is critical, warning or minor. -/
theorem tier_ne_healthy_cases (p : Tier) (hp : p ≠ Tier.healthy) :
    p = Tier.critical ∨ p = Tier.warning ∨ p = Tier.minor := by
  cases p
  · exact absurd rfl hp
  · exact Or.inr (Or.inr rfl)
  · exact Or.inr (Or.inl rfl)
  · exact Or.inl rfl


/-- C3: for every input triple (signal, drops, uptime), `assign_health_tier`
returns critical / warning / minor / healthy by exactly the priority-ordered,
first-match-wins threshold conditions stated in the specification (formalised
verbatim as `classify_spec`). -/
theorem C3_classifier_priority_order :
    ∀ (signal drops : ℤ) (uptime : ℚ),
      assign_health_tier signal drops uptime = classify_spec signal drops uptime :=
  fun _ _ _ => rfl

/-- C4: over the attainable range `0 ≤ roll < 1` of `random.random()`, the
health profile is selected by the fixed cumulative thresholds
`[0, 0.10) ↦ critical`, `[0.10, 0.20) ↦ warning`, `[0.20, 0.30) ↦ minor`,
`[0.30, 1) ↦ healthy` — a 10/10/10/70 split governed by the threshold values
(not by the `60% healthy` narrative comment in the source). -/
theorem C4_profile_selection_thresholds (roll : ℚ) (h0 : 0 ≤ roll) (h1 : roll < 1) :
    (profileOfRoll roll = Tier.critical ↔ roll < 0.10) ∧
    (profileOfRoll roll = Tier.warning ↔ 0.10 ≤ roll ∧ roll < 0.20) ∧
    (profileOfRoll roll = Tier.minor ↔ 0.20 ≤ roll ∧ roll < 0.30) ∧
    (profileOfRoll roll = Tier.healthy ↔ 0.30 ≤ roll) := by
  rcases lt_or_le roll 0.10 with ha | ha
  · have hp : profileOfRoll roll = Tier.critical := by
      unfold profileOfRoll; rw [if_pos ha]
    exact ⟨iff_of_true hp ha,
      iff_of_false (by rw [hp]; simp) (by rintro ⟨h1', h2'⟩; linarith),
      iff_of_false (by rw [hp]; simp) (by rintro ⟨h1', h2'⟩; linarith),
      iff_of_false (by rw [hp]; simp) (by intro hh; linarith)⟩
  · rcases lt_or_le roll 0.20 with hb | hb
    · have hp : profileOfRoll roll = Tier.warning := by
        unfold profileOfRoll; rw [if_neg (not_lt.mpr ha), if_pos hb]
      exact ⟨iff_of_false (by rw [hp]; simp) (not_lt.mpr ha),
        iff_of_true hp ⟨ha, hb⟩,
        iff_of_false (by rw [hp]; simp) (by rintro ⟨h1', h2'⟩; linarith),
        iff_of_false (by rw [hp]; simp) (by intro hh; linarith)⟩
    · rcases lt_or_le roll 0.30 with hc | hc
      · have hp : profileOfRoll roll = Tier.minor := by
          unfold profileOfRoll
          rw [if_neg (not_lt.mpr ha), if_neg (not_lt.mpr hb), if_pos hc]
        exact ⟨iff_of_false (by rw [hp]; simp) (not_lt.mpr ha),
          iff_of_false (by rw [hp]; simp) (by rintro ⟨h1', h2'⟩; linarith),
          iff_of_true hp ⟨hb, hc⟩,
          iff_of_false (by rw [hp]; simp) (by intro hh; linarith)⟩
      · have hp : profileOfRoll roll = Tier.healthy := by
          unfold profileOfRoll
          rw [if_neg (not_lt.mpr ha), if_neg (not_lt.mpr hb), if_neg (not_lt.mpr hc)]
        exact ⟨iff_of_false (by rw [hp]; simp) (not_lt.mpr ha),
          iff_of_false (by rw [hp]; simp) (by rintro ⟨h1', h2'⟩; linarith),
          iff_of_false (by rw [hp]; simp) (by rintro ⟨h1', h2'⟩; linarith),
          iff_of_true hp hc⟩

/-- Witness for C4 at the concrete roll 0.25. -/
theorem C4_profile_selection_thresholds_witness :
    ((0 : ℚ) ≤ 0.25 ∧ (0.25 : ℚ) < 1) ∧
    ((profileOfRoll 0.25 = Tier.critical ↔ (0.25 : ℚ) < 0.10) ∧
     (profileOfRoll 0.25 = Tier.warning ↔ (0.10 : ℚ) ≤ 0.25 ∧ (0.25 : ℚ) < 0.20) ∧
     (profileOfRoll 0.25 = Tier.minor ↔ (0.20 : ℚ) ≤ 0.25 ∧ (0.25 : ℚ) < 0.30) ∧
     (profileOfRoll 0.25 = Tier.healthy ↔ (0.30 : ℚ) ≤ 0.25)) :=
  ⟨⟨by norm_num, by norm_num⟩,
   C4_profile_selection_thresholds 0.25 (by norm_num) (by norm_num)⟩

/-- C2: the stored `tier` of every generated vehicle equals the classifier
applied to that record's own stored signal, drop count and uptime (for all
draws, valid or not, so the tier is never sampled directly), and for some
attainable draws the tier differs from the HealthProfile that drove the
sampling (a minor-profile vehicle classifying as healthy). -/
theorem C2_tier_from_classifier_on_stored_fields :
    (∀ (d : VehicleDraws) (index : ℕ) (now : ℚ),
        (generate_vehicle d index now).tier =
          assign_health_tier (generate_vehicle d index now).sig
            (generate_vehicle d index now).drops (generate_vehicle d index now).uptime) ∧
    (∃ d : VehicleDraws, validDraws d = true ∧
        (generate_vehicle d 1 0).tier ≠ profileOfRoll d.roll) :=
  ⟨fun _ _ _ => rfl,
   ⟨dMinor, by with_unfolding_all decide, by with_unfolding_all decide⟩⟩

/-- C5: for any vehicle list, the error log is a permutation of the list with
exactly one entry per error type of each vehicle that is not healthy and has a
non-null `lastErr` (`errorEntriesOf`, in vehicle order), sorted non-increasing
by timestamp.  `generate_error_log` is a pure function of the vehicle list, so
the aggregation is deterministic and draws no randomness. -/
theorem C5_error_log_one_entry_per_pair_sorted (vehicles : List Vehicle) :
    List.Perm (generate_error_log vehicles) (vehicles.flatMap errorEntriesOf) ∧
    List.Pairwise (fun a b => b.ts ≤ a.ts) (generate_error_log vehicles) :=
  ⟨List.perm_insertionSort errEntryLater (vehicles.flatMap errorEntriesOf),
   List.sorted_insertionSort errEntryLater (vehicles.flatMap errorEntriesOf)⟩

/-- C8: the document has exactly the requested number of vehicles and towers,
for every requested pair of counts, and counts (0, 0) produce the document
with three empty lists. -/
theorem C8_cardinality_and_zero_counts (vd : ℕ → VehicleDraws) (td : ℕ → TowerDraws)
    (nVehicles nTowers : ℕ) (now : ℚ) :
    (generate_document vd td nVehicles nTowers now).v.length = nVehicles ∧
    (generate_document vd td nVehicles nTowers now).t.length = nTowers ∧
    generate_document vd td 0 0 now = ⟨[], [], []⟩ := by
  refine ⟨?_, ?_, rfl⟩
  · show ((List.range nVehicles).map fun i => generate_vehicle (vd i) (i + 1) now).length
      = nVehicles
    simp
  · show ((List.range nTowers).map fun j => generate_tower (td j)).length = nTowers
    simp

/-- C9: for some attainable draws (minor profile, attempts at the low end and
successes at the high end of their ranges), `pdpSuccess > pdpAttempts`, and
likewise `locSuccess > locUpdates` — success ≤ attempts is not enforced. -/
theorem C9_success_counts_can_exceed_attempts :
    (∃ (d : VehicleDraws) (index : ℕ) (now : ℚ), validDraws d = true ∧
        (generate_vehicle d index now).pdpAttempts < (generate_vehicle d index now).pdpSuccess) ∧
    (∃ (d : VehicleDraws) (index : ℕ) (now : ℚ), validDraws d = true ∧
        (generate_vehicle d index now).locUpdates < (generate_vehicle d index now).locSuccess) :=
  ⟨⟨dMinor, 1, 0, by with_unfolding_all decide, by with_unfolding_all decide⟩,
   ⟨dMinor, 1, 0, by with_unfolding_all decide, by with_unfolding_all decide⟩⟩

/-- C6: for attainable draws, `lastErr` is non-null exactly when the sampled
error count is positive and the HealthProfile is critical, warning or minor;
when present it equals the reference time minus a drawn 10-300 whole minutes,
truncated to the whole minute. -/
theorem C6_lastErr_presence_and_range (d : VehicleDraws) (index : ℕ) (now : ℚ)
    (hv : validDraws d = true) :
    ((generate_vehicle d index now).lastErr ≠ none ↔
      0 < (generate_vehicle d index now).errCount ∧ profileOfRoll d.roll ≠ Tier.healthy) ∧
    (∀ t : ℤ, (generate_vehicle d index now).lastErr = some t →
      ∃ m : ℤ, 10 ≤ m ∧ m ≤ 300 ∧ t = minuteFloor (now - 60 * m)) := by
  obtain ⟨-, hlem, -⟩ := validDraws_parts d hv
  rw [gv_lastErr, gv_errCount]
  constructor
  · constructor
    · intro hne
      by_cases h : 0 < d.errCount ∧
          (profileOfRoll d.roll = Tier.critical ∨ profileOfRoll d.roll = Tier.warning ∨
            profileOfRoll d.roll = Tier.minor)
      · refine ⟨h.1, ?_⟩
        rcases h.2 with hh | hh | hh <;> rw [hh] <;> simp
      · rw [if_neg h] at hne
        exact absurd rfl hne
    · rintro ⟨hc, hne⟩
      rw [if_pos ⟨hc, tier_ne_healthy_cases _ hne⟩]
      simp
  · intro t ht
    split_ifs at ht with h
    refine ⟨d.lastErrMinutes, hlem.1, hlem.2, ?_⟩
    injection ht with ht'
    exact ht'.symm

/-- Witness for C6 at the concrete critical-profile draws `dCrit`. -/
theorem C6_lastErr_presence_and_range_witness :
    validDraws dCrit = true ∧
    (((generate_vehicle dCrit 1 0).lastErr ≠ none ↔
        0 < (generate_vehicle dCrit 1 0).errCount ∧ profileOfRoll dCrit.roll ≠ Tier.healthy) ∧
     (∀ t : ℤ, (generate_vehicle dCrit 1 0).lastErr = some t →
        ∃ m : ℤ, 10 ≤ m ∧ m ≤ 300 ∧ t = minuteFloor ((0 : ℚ) - 60 * m))) :=
  ⟨by with_unfolding_all decide,
   C6_lastErr_presence_and_range dCrit 1 0 (by with_unfolding_all decide)⟩

set_option maxRecDepth 8000 in
/-- C10: under attainable draws, every vehicle whose sampled profile is
critical, warning or minor has error count at least 1, a non-empty `errTypes`
sample, and hence (by the `lastErr` condition) a non-null `lastErr`. -/
theorem C10_nonhealthy_profile_implies_errors (d : VehicleDraws) (index : ℕ) (now : ℚ)
    (hv : validDraws d = true) (hp : profileOfRoll d.roll ≠ Tier.healthy) :
    1 ≤ (generate_vehicle d index now).errCount ∧
    (generate_vehicle d index now).errTypes ≠ [] ∧
    (generate_vehicle d index now).lastErr ≠ none := by
  obtain ⟨hvp, -, -⟩ := validDraws_parts d hv
  unfold validProfileDraws at hvp
  have herrc : 1 ≤ d.errCount ∧ 1 ≤ d.errTypes.length := by
    rcases tier_ne_healthy_cases _ hp with h' | h' | h' <;> rw [h'] at hvp <;>
      simp only [Bool.and_eq_true, inRangeZ, validSample, decide_eq_true_eq] at hvp
    · obtain ⟨⟨⟨⟨⟨⟨⟨⟨⟨⟨⟨⟨⟨⟨⟨-, -⟩, -⟩, -⟩, herr⟩, hsam⟩, -⟩, -⟩, -⟩, -⟩, -⟩,
        -⟩, -⟩, -⟩, -⟩, -⟩ := hvp
      exact ⟨by have := herr.1; omega, by have := hsam.1.1.1; omega⟩
    · obtain ⟨⟨⟨⟨⟨⟨⟨⟨⟨⟨⟨⟨⟨⟨-, -⟩, -⟩, -⟩, herr⟩, hsam⟩, -⟩, -⟩, -⟩, -⟩, -⟩,
        -⟩, -⟩, -⟩, -⟩ := hvp
      exact ⟨by have := herr.1; omega, by have := hsam.1.1.1; omega⟩
    · obtain ⟨⟨⟨⟨⟨⟨⟨⟨⟨⟨⟨⟨-, -⟩, -⟩, herr⟩, hsam⟩, -⟩, -⟩, -⟩, -⟩, -⟩, -⟩, -⟩, -⟩ := hvp
      exact ⟨by have := herr.1; omega, by have := hsam.1.1.1; omega⟩
  refine ⟨?_, ?_, ?_⟩
  · rw [gv_errCount]
    exact herrc.1
  · rw [gv_errTypes]
    rcases tier_ne_healthy_cases _ hp with h' | h' | h' <;> rw [h'] <;>
      (show d.errTypes ≠ []
       intro hnil
       have hlen := herrc.2
       rw [hnil] at hlen
       simp at hlen)
  · rw [gv_lastErr]
    rw [if_pos ⟨by omega, tier_ne_healthy_cases _ hp⟩]
    simp

/-- Witness for C10 at the concrete critical-profile draws `dCrit`. -/
theorem C10_nonhealthy_profile_implies_errors_witness :
    validDraws dCrit = true ∧ profileOfRoll dCrit.roll ≠ Tier.healthy ∧
    (1 ≤ (generate_vehicle dCrit 1 0).errCount ∧
     (generate_vehicle dCrit 1 0).errTypes ≠ [] ∧
     (generate_vehicle dCrit 1 0).lastErr ≠ none) :=
  ⟨by with_unfolding_all decide, by with_unfolding_all decide,
   C10_nonhealthy_profile_implies_errors dCrit 1 0 (by with_unfolding_all decide)
     (by with_unfolding_all decide)⟩

/-- C7 counterexample: at vehicle index 10^10 (with attainable draws `dMinor`)
the IMSI is 16 characters, not the claimed 15-digit string, because
`str(index).zfill(10)` exceeds ten digits. -/
theorem C7_imsi_not_15_digits_at_index_ten_billion :
    validDraws dMinor = true ∧
    (generate_vehicle dMinor 10000000000 0).imsi.length = 16 ∧
    (generate_vehicle dMinor 10000000000 0).imsi.length ≠ 15 := by
  refine ⟨by with_unfolding_all decide, ?_, ?_⟩ <;> with_unfolding_all decide

set_option maxRecDepth 8000 in
/-- C7 (amended): for every vehicle index with 1 ≤ index < 10^10 and an
attainable IMEI suffix draw (10-99), the IMSI is "21401" followed by the
ten-digit zero-filled index — a 15-character decimal-digit string — the IMEI
is a 14-character decimal-digit string, and `balPct` equals
`round((plan - used)/plan * 100, 1)` exactly, with plan the constant 2048. -/
theorem C7_id_formats_and_balance (d : VehicleDraws) (index : ℕ) (now : ℚ)
    (h1 : 1 ≤ index) (h2 : index < 10 ^ 10)
    (h3 : 10 ≤ d.imeiSuffix) (h4 : d.imeiSuffix ≤ 99) :
    (generate_vehicle d index now).imsi = "21401" ++ zfill (Nat.repr index) 10 ∧
    (generate_vehicle d index now).imsi.length = 15 ∧
    (∀ c ∈ (generate_vehicle d index now).imsi.data, c.isDigit = true) ∧
    (generate_vehicle d index now).imei.length = 14 ∧
    (∀ c ∈ (generate_vehicle d index now).imei.data, c.isDigit = true) ∧
    (generate_vehicle d index now).balPct =
      round_dp 1 ((((generate_vehicle d index now).plan : ℚ) -
          ((generate_vehicle d index now).used : ℚ)) /
        ((generate_vehicle d index now).plan : ℚ) * 100) ∧
    (generate_vehicle d index now).plan = 2048 := by
  have himsi : (generate_vehicle d index now).imsi = "21401" ++ zfill (Nat.repr index) 10 := rfl
  have hrlen : (Nat.repr index).length ≤ 10 := by
    rw [repr_length]
    have hlog : Nat.log 10 index < 10 := Nat.log_lt_of_lt_pow (by omega) h2
    omega
  refine ⟨himsi, ?_, ?_, ?_, ?_, rfl, rfl⟩
  · rw [himsi, String.length_append, zfill_length]
    have h5 : ("21401" : String).length = 5 := rfl
    omega
  · rw [himsi]
    intro c hc
    have hdata : ("21401" ++ zfill (Nat.repr index) 10).data =
        "21401".data ++
          (List.replicate (10 - (Nat.repr index).length) '0' ++ (Nat.repr index).data) := rfl
    rw [hdata] at hc
    rcases List.mem_append.mp hc with h | h
    · have hall : ∀ c' ∈ ("21401" : String).data, c'.isDigit = true := by decide
      exact hall c h
    · rcases List.mem_append.mp h with h' | h'
      · rw [List.eq_of_mem_replicate h']
        rfl
      · exact repr_digits index c h'
  · have himei : (generate_vehicle d index now).imei =
        Int.repr (35684900000000 + (index : ℤ) * 100 + d.imeiSuffix) := rfl
    have hpow : (10 : ℕ) ^ 10 = 10000000000 := by norm_num
    rw [hpow] at h2
    have hcast : (35684900000000 + (index : ℤ) * 100 + d.imeiSuffix) =
        (((35684900000000 + (index : ℤ) * 100 + d.imeiSuffix).toNat : ℕ) : ℤ) := by omega
    have hrepr : (generate_vehicle d index now).imei =
        Nat.repr (35684900000000 + (index : ℤ) * 100 + d.imeiSuffix).toNat := by
      rw [himei, hcast]
      rfl
    have hKrange : 10000000000000 ≤ (35684900000000 + (index : ℤ) * 100 + d.imeiSuffix).toNat ∧
        (35684900000000 + (index : ℤ) * 100 + d.imeiSuffix).toNat < 100000000000000 := by
      omega
    rw [hrepr, repr_length]
    have e1 : (10 : ℕ) ^ 13 = 10000000000000 := by norm_num
    have e2 : (10 : ℕ) ^ (13 + 1) = 100000000000000 := by norm_num
    have hlog : Nat.log 10 (35684900000000 + (index : ℤ) * 100 + d.imeiSuffix).toNat = 13 :=
      Nat.log_eq_of_pow_le_of_lt_pow (e1 ▸ hKrange.1) (e2 ▸ hKrange.2)
    omega
  · have himei : (generate_vehicle d index now).imei =
        Int.repr (35684900000000 + (index : ℤ) * 100 + d.imeiSuffix) := rfl
    have hcast : (35684900000000 + (index : ℤ) * 100 + d.imeiSuffix) =
        (((35684900000000 + (index : ℤ) * 100 + d.imeiSuffix).toNat : ℕ) : ℤ) := by omega
    have hrepr : (generate_vehicle d index now).imei =
        Nat.repr (35684900000000 + (index : ℤ) * 100 + d.imeiSuffix).toNat := by
      rw [himei, hcast]
      rfl
    rw [hrepr]
    exact repr_digits _

/-- Witness for C7 (amended) at index 7 with the concrete draws `dMinor`. -/
theorem C7_id_formats_and_balance_witness :
    (1 ≤ 7 ∧ 7 < 10 ^ 10 ∧ 10 ≤ dMinor.imeiSuffix ∧ dMinor.imeiSuffix ≤ 99) ∧
    ((generate_vehicle dMinor 7 0).imsi = "21401" ++ zfill (Nat.repr 7) 10 ∧
     (generate_vehicle dMinor 7 0).imsi.length = 15 ∧
     (∀ c ∈ (generate_vehicle dMinor 7 0).imsi.data, c.isDigit = true) ∧
     (generate_vehicle dMinor 7 0).imei.length = 14 ∧
     (∀ c ∈ (generate_vehicle dMinor 7 0).imei.data, c.isDigit = true) ∧
     (generate_vehicle dMinor 7 0).balPct =
       round_dp 1 ((((generate_vehicle dMinor 7 0).plan : ℚ) -
           ((generate_vehicle dMinor 7 0).used : ℚ)) /
         ((generate_vehicle dMinor 7 0).plan : ℚ) * 100) ∧
     (generate_vehicle dMinor 7 0).plan = 2048) :=
  ⟨⟨by norm_num, by norm_num, by decide, by decide⟩,
   C7_id_formats_and_balance dMinor 7 0 (by norm_num) (by norm_num) (by decide) (by decide)⟩

/-- C1: refuted as stated — the output document is NOT a function of the seed
and counts alone.  With identical draw streams (the seeded generator's output)
and identical counts, two runs whose `datetime.now(timezone.utc)` reference
times differ by one minute produce different documents, because `lastErr`
(and the event/incident timestamps) are derived from the wall clock.  The two
runs here use the attainable draws `dCrit` for the single vehicle and differ
only in `now`. -/
theorem C1_output_depends_on_wall_clock :
    validDraws dCrit = true ∧
    generate_document (fun _ => dCrit) (fun _ => tdDefault) 1 0 1700000000 ≠
      generate_document (fun _ => dCrit) (fun _ => tdDefault) 1 0 1700000060 := by
  constructor
  · with_unfolding_all decide
  · intro h
    have h2 := congrArg (fun doc => doc.v.map (fun v => v.lastErr)) h
    revert h2
    with_unfolding_all decide
